import Mathlib

/-!
Shallow embedding of the cuML property-based test-data generation layer
(`python/cuml/testing/strategies.py`) and of the optional-import shim
(`python/cuml/common/import_utils.py`).

Hypothesis composite strategies are embedded as pure functions over the raw
engine choices: each `draw` point of the Python code becomes an explicit
argument (a number, or a `Nat`-indexed family of values for a sub-strategy).
The hypothesis `assume(p)` rejection signal is embedded by the explicit
result type `GenResult` (accepted / rejected), and a Python `raise` inside a
generator body by `GenResult.error`.  External primitives that are not part
of this repository (hypothesis `array_shapes`/`arrays`, sklearn
`train_test_split`/`make_regression`) are modelled from the spec; each such
definition carries a doc comment saying so.
-/

/-- Outcome of running a generator body on one set of engine choices:
a value, a constraint rejection (hypothesis `assume` failure, to be
resampled by the engine), or a fatal configuration error (Python `raise`). -/
inductive GenResult (α : Type) where
  | accepted (v : α)
  | rejected
  | error (msg : String)
deriving DecidableEq

/-- The numeric element dtypes appearing in `_CUML_ARRAY_DTYPES`. -/
inductive DType where
  | float16 | float32 | float64
  | int8 | int16 | int32 | int64
  | uint8 | uint16 | uint32 | uint64
deriving DecidableEq

/-- Memory layout order, drawn from `_CUML_ARRAY_ORDERS = ["F", "C"]`. -/
inductive Order where
  | F | C
deriving DecidableEq

/-- `_CUML_ARRAY_INPUT_TYPES = ['numpy', 'cupy', 'series', None]`; a container
kind is a Python string or `None`, embedded as `Option String`. -/
def _CUML_ARRAY_INPUT_TYPES : List (Option String) :=
  [some "numpy", some "cupy", some "series", none]

/-- `_CUML_ARRAY_DTYPES` constant list from the source. -/
def _CUML_ARRAY_DTYPES : List DType :=
  [.float16, .float32, .float64,
   .int8, .int16, .int32, .int64,
   .uint8, .uint16, .uint32, .uint64]

/-- `_UNSUPPORTED_CUDF_DTYPES = [np.uint8, np.uint16, np.uint32, np.uint64,
np.float16]`: dtypes that a cudf Series cannot hold. -/
def _UNSUPPORTED_CUDF_DTYPES : List DType :=
  [.uint8, .uint16, .uint32, .uint64, .float16]

/-- The shape argument of `create_cuml_array_input`: Python passes either a
tuple of ints (from `array_shapes`) or a bare int. -/
inductive PyShape where
  | tup (dims : List Nat)
  | scalar (n : Nat)
deriving DecidableEq

/-- The dimensions of the array `cp.ones(shape, ...)` builds: an int shape `n`
gives a 1-d array of length `n`. -/
def PyShape.dims : PyShape → List Nat
  | .tup l => l
  | .scalar n => [n]

/-- Modelled from the spec: the draw of hypothesis `integers(lo, hi)`, the
external integer-range primitive.  Every raw engine choice `d` is mapped into
the inclusive range `[lo, hi]`, and every value of the range is reachable. -/
def integersDraw (lo hi : ℕ) (d : ℕ) : ℕ := lo + d % (hi - lo + 1)

/-- Modelled from the spec: `hypothesis.extra.numpy.array_shapes`, the
external shape-generation primitive ("produces shapes uniformly over the
legal combinatorial space defined by the bounds").  The raw engine choices
(`dimDraw` for the dimension count, `sideDraw i` for axis `i`) are mapped
into the legal space `[min_dims, max_dims]` and `[min_side, max_side]`. -/
def array_shapes (min_dims max_dims min_side max_side : ℕ)
    (dimDraw : ℕ) (sideDraw : ℕ → ℕ) : List ℕ :=
  (List.range (integersDraw min_dims max_dims dimDraw)).map
    (fun i => integersDraw min_side max_side (sideDraw i))

/-- `cuml_array_shapes(min_dims=1, max_dims=2, min_side=1, max_side=None)`.
The bound checks of the source body textually precede its single
`draw(shapes)` call, so the embedding validates first and only on success
returns the sampling function (which consumes the engine choices); an
invalid configuration yields `Except.error` without ever touching a draw. -/
def cuml_array_shapes (min_dims max_dims min_side : ℕ) (max_side : Option ℕ) :
    Except String (ℕ → (ℕ → ℕ) → List ℕ) :=
  let max_side := max_side.getD 10
  if ¬ (1 ≤ min_dims ∧ min_dims ≤ max_dims) then
    .error "Arguments violate condition 1 <= min_dims <= max_dims."
  else if ¬ (0 < min_side ∧ min_side < max_side) then
    .error "Arguments violate condition 0 < min_side < max_side."
  else
    .ok (fun dimDraw sideDraw =>
      array_shapes min_dims max_dims min_side max_side dimDraw sideDraw)

/-- The array `cp.ones(shape, dtype=dtype, order=order)` builds: the content
is all-ones, so only dtype, dimensions and order are tracked. -/
structure CpArray where
  dtype : DType
  dims : List ℕ
  order : Order
deriving DecidableEq

/-- The value `create_cuml_array_input` returns: a numpy array
(`np.array(cp.asnumpy(array), dtype=dtype, order=order)`), a cudf Series
(`cudf.Series(array)`), or the cupy array itself. -/
inductive ArrayInput where
  | numpy (a : CpArray)
  | series (a : CpArray)
  | cupy (a : CpArray)
deriving DecidableEq

/-- `multidimensional = isinstance(shape, tuple) and
len([d for d in shape if d > 1]) > 1`. -/
def multidimensional (shape : PyShape) : Bool :=
  match shape with
  | .tup dims => 1 < (dims.filter (fun d => 1 < d)).length
  | .scalar _ => false

/-- `create_cuml_array_input(input_type, dtype, shape, order)`: first the
`assume(not (input_type == "series" and (dtype in _UNSUPPORTED_CUDF_DTYPES
or multidimensional)))` rejection, then the container dispatch, with an
unknown input type raising `ValueError`. -/
def create_cuml_array_input (input_type : Option String) (dtype : DType)
    (shape : PyShape) (order : Order) : GenResult ArrayInput :=
  if input_type = some "series" ∧
      (dtype ∈ _UNSUPPORTED_CUDF_DTYPES ∨ multidimensional shape) then
    .rejected
  else
    let array : CpArray := ⟨dtype, shape.dims, order⟩
    if input_type = some "numpy" then .accepted (.numpy array)
    else if input_type = some "series" then .accepted (.series array)
    else if input_type = none ∨ input_type = some "cupy" then
      .accepted (.cupy array)
    else .error ("Unknown input_type \x27" ++ (input_type.getD "") ++ ".")

/-- `CumlArray(data=array_input)`: the wrapper class, tracked by its input. -/
structure CumlArray where
  data : ArrayInput
deriving DecidableEq

/-- `cuml_arrays(input_types, dtypes, shapes, orders)`: draws one value from
each sub-strategy (each embedded as a `Nat`-indexed family over raw engine
choices `d1..d4`) and materializes the input. -/
def cuml_arrays (input_types : ℕ → Option String) (dtypes : ℕ → DType)
    (shapes : ℕ → PyShape) (orders : ℕ → Order)
    (d1 d2 d3 d4 : ℕ) : GenResult CumlArray :=
  match create_cuml_array_input (input_types d1) (dtypes d2)
      (shapes d3) (orders d4) with
  | .accepted a => .accepted ⟨a⟩
  | .rejected => .rejected
  | .error m => .error m

/-- A structure-only numpy array as produced by the hypothesis `arrays`
primitive: only dtype and shape matter to the datasets strategies. -/
structure NpArray where
  dtype : DType
  shape : List ℕ
deriving DecidableEq

/-- `len` of a numpy array: its leading dimension. -/
def NpArray.len (a : NpArray) : ℕ := a.shape.headD 0

/-- Modelled from the spec: the hypothesis `arrays(dtype, shape)` external
primitive, "given a dtype and shape, produce an array of that dtype/shape". -/
def np_arrays (dtype : DType) (shape : List ℕ) : NpArray := ⟨dtype, shape⟩

/-- `standard_datasets(dtypes, n_samples, n_features, n_targets)`: draws
`xs = draw(n_samples)`, `ys = draw(n_features)`, then returns
`draw(arrays(dtypes, (xs, ys))), draw(arrays(dtypes, (xs, draw(n_targets))))`;
the two arrays draw their dtypes independently from the `dtypes` strategy. -/
def standard_datasets (dtypes : ℕ → DType)
    (n_samples n_features n_targets : ℕ → ℕ)
    (dS dF dT dD1 dD2 : ℕ) : NpArray × NpArray :=
  let xs := n_samples dS
  let ys := n_features dF
  (np_arrays (dtypes dD1) [xs, ys], np_arrays (dtypes dD2) [xs, n_targets dT])

/-- Python `int(x)` on a real value: truncation toward zero. -/
def pyInt (q : ℚ) : ℤ := if 0 ≤ q then ⌊q⌋ else ⌈q⌉

/-- A value drawn from a `test_sizes` strategy: a Python `int`, a Python
`float` (embedded as the rational it denotes), or any other value (e.g.
`None` or a numpy integer), which `isinstance` checks in `split_datasets`
do not recognise. -/
inductive TestSize where
  | int (t : ℤ)
  | float (q : ℚ)
  | other
deriving DecidableEq

/-- Modelled from the spec: `sklearn.model_selection.train_test_split`, the
external partitioning primitive, tracked by partition sizes
`(len(X_train), len(X_test))`.  For an int `test_size` it takes exactly that
many test rows; for a float it takes `ceil(n * test_size)`; a non-int
non-float value falls back to the library default of a quarter test split.
It raises (here `Except.error`) when the size is out of range or either
partition would be empty, and otherwise returns partitions whose sizes add
up to `n`. -/
def train_test_split (n : ℕ) : TestSize → Except String (ℕ × ℕ)
  | .int t =>
      if 0 < t ∧ t < (n : ℤ) then .ok (n - t.toNat, t.toNat)
      else .error "test_size should be positive and smaller than the number of samples"
  | .float q =>
      if 0 < q ∧ q < 1 then
        if 1 ≤ (⌈(n : ℚ) * q⌉).toNat ∧ (⌈(n : ℚ) * q⌉).toNat + 1 ≤ n then
          .ok (n - (⌈(n : ℚ) * q⌉).toNat, (⌈(n : ℚ) * q⌉).toNat)
        else .error "the resulting train set or test set will be empty"
      else .error "test_size should be in the (0, 1) range"
  | .other =>
      if 1 ≤ (⌈(n : ℚ) / 4⌉).toNat ∧ (⌈(n : ℚ) / 4⌉).toNat + 1 ≤ n then
        .ok (n - (⌈(n : ℚ) / 4⌉).toNat, (⌈(n : ℚ) / 4⌉).toNat)
      else .error "the resulting train set or test set will be empty"

/-- The `isinstance`-guarded `assume` checks of `split_datasets` applied to
the drawn `test_size` candidate, followed by the `train_test_split` call:
a float rejects unless `int(len(X) * test_size) > 0` and
`int(len(X) * (1.0 - test_size)) > 0`; an int rejects unless
`1 < test_size < len(X)`; any other value is passed through unchecked. -/
def split_datasets_check (n : ℕ) : TestSize →
    GenResult (Except String (ℕ × ℕ))
  | .float q =>
      if 0 < pyInt ((n : ℚ) * q) ∧ 0 < pyInt ((n : ℚ) * (1 - q)) then
        .accepted (train_test_split n (.float q))
      else .rejected
  | .int t =>
      if 1 < t ∧ t < (n : ℤ) then .accepted (train_test_split n (.int t))
      else .rejected
  | .other => .accepted (train_test_split n .other)

/-- `split_datasets(datasets, test_sizes=None)`, tracked by sizes: the drawn
dataset is represented by `n = len(X)`.  The body rejects when
`len(X) <= 1` (`assume(len(X) > 1)`); builds the default
`integers(1, max(1, len(X) - 1))` strategy when `test_sizes is None`; draws
`test_size` (raw engine choice `d`); and runs the checks and the final
`train_test_split` call (`split_datasets_check`). -/
def split_datasets (n : ℕ) (test_sizes : Option (ℕ → TestSize)) (d : ℕ) :
    GenResult (Except String (ℕ × ℕ)) :=
  if n ≤ 1 then .rejected
  else
    split_datasets_check n
      (match test_sizes with
       | none => .int (integersDraw 1 (max 1 (n - 1)) d)
       | some f => f d)

/-- The argument record of the `make_regression` call inside
`standard_regression_datasets` (the fields the claims observe). -/
structure MakeRegressionArgs where
  n_samples : ℕ
  n_features : ℕ
  n_informative : ℕ
  n_targets : ℕ
deriving DecidableEq

/-- `standard_regression_datasets`, tracked by the arguments it passes to the
external `make_regression` synthesizer and the dtype both outputs are cast
to.  `n_features_ = draw(n_features)` happens first; when `n_informative` is
`None` it becomes `just(max(min(n_features_, 1), int(0.1 * n_features_)))`.
For a natural `n`, Python `int(0.1 * n)` truncates `0.1 * n` toward zero,
which is `n / 10` in natural division (the float product `0.1 * n` never
crosses an integer boundary for the magnitudes involved). -/
def standard_regression_datasets (dtypes : ℕ → DType)
    (n_samples n_features : ℕ → ℕ)
    (n_informative : Option (ℕ → ℕ)) (n_targets : ℕ → ℕ)
    (dF dS dI dT dD : ℕ) : MakeRegressionArgs × DType :=
  let n_features_ := n_features dF
  let n_informative_ :=
    match n_informative with
    | none => max (min n_features_ 1) (n_features_ / 10)
    | some f => f dI
  (⟨n_samples dS, n_features_, n_informative_, n_targets dT⟩, dtypes dD)

/-- Formalisation of the spec sentence for the `n_informative` default, for
comparison with the source: "default it deterministically to
`max(1, round(0.1 × n_features))`, except force it to 0 only when
`n_features` is 0". -/
def n_informative_claimed (n : ℕ) : ℤ :=
  if n = 0 then 0 else max 1 (round ((n : ℚ) / 10))

/-- The `MissingImport` placeholder of `cuml/common/import_utils.py`,
tracked by the `_msg` its `__init__` stores. -/
structure MissingImport where
  _msg : String
deriving DecidableEq

/-- `MissingImport.__init__(self, symbol, msg=None)`: stores
`msg` when given, else `f"\x7bsymbol\x7d could not be imported"`. -/
def MissingImport.ofSymbol (symbol : String) (msg : Option String) :
    MissingImport :=
  ⟨msg.getD (symbol ++ " could not be imported")⟩

/-- `MissingImport.__getattr__(self, name)`:
`raise UnavailableImportError(self._msg)`.  A raised exception is an
`Except.error`; the method could in principle return a value (`Unit` here),
but never does. -/
def MissingImport.getattr (mi : MissingImport) (_name : String) :
    Except String Unit :=
  .error mi._msg

/-- `MissingImport.__call__(self, *args, **kwargs)`:
`raise UnavailableImportError(self._msg)`. -/
def MissingImport.call (mi : MissingImport) (_args : List String)
    (_kwargs : List (String × String)) : Except String Unit :=
  .error mi._msg

/-- The value `safe_import` returns: the imported module (an opaque handle of
type `μ`) or a `MissingImport` placeholder. -/
inductive ImportResult (μ : Type) where
  | imported (m : μ)
  | missing (mi : MissingImport)

/-- `safe_import(module, msg=None)`: `importlib.import_module(module)` is
embedded as a lookup in an import environment `env` (any failure of the
Python import machinery, whatever the exception, is `none`); the
`try/except Exception` makes the function total: success returns the
module, failure returns `MissingImport(module, msg=msg)`. -/
def safe_import {μ : Type} (env : String → Option μ) (module : String)
    (msg : Option String) : ImportResult μ :=
  match env module with
  | some m => .imported m
  | none => .missing (MissingImport.ofSymbol module msg)

/-! ## Theorems -/

theorem integersDraw_le (lo hi d : ℕ) (h : lo ≤ hi) :
    lo ≤ integersDraw lo hi d ∧ integersDraw lo hi d ≤ hi := by
  unfold integersDraw
  have hlt : d % (hi - lo + 1) < hi - lo + 1 := Nat.mod_lt _ (Nat.succ_pos _)
  omega

/-- C3: `cuml_array_shapes` validates its bound invariants at construction
time: with `min_dims > max_dims` or `min_side` not strictly between 0 and
`max_side` it yields the `ValueError` immediately — the returned `Except`
value depends only on the bounds and is an error before the sampling
function (the `.ok` payload consuming engine draws) could ever exist. -/
theorem cuml_array_shapes_invalid_bounds_error
    (min_dims max_dims min_side : ℕ) (max_side : Option ℕ)
    (h : ¬ (1 ≤ min_dims ∧ min_dims ≤ max_dims) ∨
         ¬ (0 < min_side ∧ min_side < max_side.getD 10)) :
    ∃ m, cuml_array_shapes min_dims max_dims min_side max_side =
      .error m := by
  unfold cuml_array_shapes
  rcases h with h | h
  · exact ⟨"Arguments violate condition 1 <= min_dims <= max_dims.",
      by simp [h]⟩
  · by_cases h1 : 1 ≤ min_dims ∧ min_dims ≤ max_dims
    · exact ⟨"Arguments violate condition 0 < min_side < max_side.",
        by simp [h1, h]⟩
    · exact ⟨"Arguments violate condition 1 <= min_dims <= max_dims.",
        by simp [h1]⟩

/-- Witness for C3 at the spec's Scenario 2 input `min_dims=3, max_dims=2`. -/
theorem cuml_array_shapes_invalid_bounds_error_witness :
    ∃ m, cuml_array_shapes 3 2 1 none = .error m :=
  cuml_array_shapes_invalid_bounds_error 3 2 1 none (Or.inl (by decide))

/-- C4: every shape produced by a successfully constructed
`cuml_array_shapes(min_dims, max_dims, min_side, max_side)` (with `max_side`
defaulting to 10) has its dimension count in `[min_dims, max_dims]` and
every axis size in `[min_side, max_side]`, for every engine choice. -/
theorem cuml_array_shapes_bounds
    (min_dims max_dims min_side : ℕ) (max_side : Option ℕ)
    (f : ℕ → (ℕ → ℕ) → List ℕ)
    (hf : cuml_array_shapes min_dims max_dims min_side max_side = .ok f)
    (dimDraw : ℕ) (sideDraw : ℕ → ℕ) :
    min_dims ≤ (f dimDraw sideDraw).length ∧
    (f dimDraw sideDraw).length ≤ max_dims ∧
    ∀ a ∈ f dimDraw sideDraw, min_side ≤ a ∧ a ≤ max_side.getD 10 := by
  unfold cuml_array_shapes at hf
  by_cases h1 : 1 ≤ min_dims ∧ min_dims ≤ max_dims
  · by_cases h2 : 0 < min_side ∧ min_side < max_side.getD 10
    · simp only [h1, h2, not_true_eq_false, if_false, and_self,
        not_false_eq_true, if_true, Except.ok.injEq] at hf
      subst hf
      unfold array_shapes
      constructor
      · simpa using (integersDraw_le min_dims max_dims dimDraw h1.2).1
      constructor
      · simpa using (integersDraw_le min_dims max_dims dimDraw h1.2).2
      · intro a ha
        simp only [List.mem_map, List.mem_range] at ha
        obtain ⟨i, -, rfl⟩ := ha
        exact integersDraw_le min_side (max_side.getD 10) (sideDraw i)
          (le_of_lt h2.2)
    · simp [h1, h2] at hf
  · simp [h1] at hf

/-- Witness for C4 at the spec's Scenario 1 bounds
`min_dims=1, max_dims=2, min_side=1, max_side=10`. -/
theorem cuml_array_shapes_bounds_witness :
    1 ≤ (array_shapes 1 2 1 10 0 (fun _ => 0)).length ∧
    (array_shapes 1 2 1 10 0 (fun _ => 0)).length ≤ 2 ∧
    ∀ a ∈ array_shapes 1 2 1 10 0 (fun _ => 0),
      1 ≤ a ∧ a ≤ (none : Option ℕ).getD 10 :=
  cuml_array_shapes_bounds 1 2 1 none
    (fun dimDraw sideDraw => array_shapes 1 2 1 10 dimDraw sideDraw) rfl
    0 (fun _ => 0)

/-- C7: every pair `standard_datasets` returns consists of an X of shape
`(n_samples, n_features)` and a y of shape `(n_samples, n_targets)` for the
same drawn `n_samples`, so `len(X) == len(y)`. -/
theorem standard_datasets_leading_dim_eq (dtypes : ℕ → DType)
    (n_samples n_features n_targets : ℕ → ℕ) (dS dF dT dD1 dD2 : ℕ) :
    (standard_datasets dtypes n_samples n_features n_targets
        dS dF dT dD1 dD2).1.shape = [n_samples dS, n_features dF] ∧
    (standard_datasets dtypes n_samples n_features n_targets
        dS dF dT dD1 dD2).2.shape = [n_samples dS, n_targets dT] ∧
    (standard_datasets dtypes n_samples n_features n_targets
        dS dF dT dD1 dD2).1.len =
      (standard_datasets dtypes n_samples n_features n_targets
        dS dF dT dD1 dD2).2.len :=
  ⟨rfl, rfl, rfl⟩

/-- C8: `create_cuml_array_input` raises `ValueError` for every string input
type outside `{numpy, series, cupy, None}`, and never raises an error for an
input type inside that domain (a `series` sample may instead be rejected). -/
theorem create_cuml_array_input_unknown_input_type :
    (∀ (s : String) (dtype : DType) (shape : PyShape) (order : Order),
        some s ∉ _CUML_ARRAY_INPUT_TYPES →
        create_cuml_array_input (some s) dtype shape order =
          .error ("Unknown input_type \x27" ++ s ++ ".")) ∧
    (∀ (it : Option String) (dtype : DType) (shape : PyShape)
        (order : Order), it ∈ _CUML_ARRAY_INPUT_TYPES →
        ∀ m, create_cuml_array_input it dtype shape order ≠ .error m) := by
  constructor
  · intro s dtype shape order hs
    simp only [_CUML_ARRAY_INPUT_TYPES, List.mem_cons, List.not_mem_nil,
      or_false, not_or, Option.some.injEq] at hs
    obtain ⟨h1, h2, h3, -⟩ := hs
    unfold create_cuml_array_input
    simp [h1, h2, h3]
  · intro it dtype shape order hit m
    unfold create_cuml_array_input
    simp only [_CUML_ARRAY_INPUT_TYPES, List.mem_cons, List.not_mem_nil,
      or_false] at hit
    rcases hit with rfl | rfl | rfl | rfl
    · simp
    · simp
    · by_cases hrej : dtype ∈ _UNSUPPORTED_CUDF_DTYPES ∨
          multidimensional shape = true
      · simp [hrej]
      · simp [hrej]
    · simp

/-- Witness for C8: `pandas` is outside the domain and errors; `numpy` is
inside and does not. -/
theorem create_cuml_array_input_unknown_input_type_witness :
    create_cuml_array_input (some "pandas") DType.float32
        (PyShape.tup [2, 2]) Order.C =
      .error ("Unknown input_type \x27" ++ "pandas" ++ ".") ∧
    ∀ m, create_cuml_array_input (some "numpy") DType.float32
        (PyShape.tup [2, 2]) Order.C ≠ .error m :=
  ⟨create_cuml_array_input_unknown_input_type.1 "pandas" DType.float32
      (PyShape.tup [2, 2]) Order.C (by decide),
   create_cuml_array_input_unknown_input_type.2 (some "numpy") DType.float32
      (PyShape.tup [2, 2]) Order.C (by decide)⟩

/-- C6: a `series` input whose dtype is in the unsupported-for-cudf set or
whose shape has more than one axis of size > 1 is discarded as a rejection
(not an error); consequently `cuml_arrays` with `input_types=just('series')`
and `dtypes=just(float16)` rejects every sample. -/
theorem create_cuml_array_input_series_rejects :
    (∀ (dtype : DType) (shape : PyShape) (order : Order),
        dtype ∈ _UNSUPPORTED_CUDF_DTYPES ∨ multidimensional shape = true →
        create_cuml_array_input (some "series") dtype shape order =
          .rejected) ∧
    (∀ (shapes : ℕ → PyShape) (orders : ℕ → Order) (d1 d2 d3 d4 : ℕ),
        cuml_arrays (fun _ => some "series") (fun _ => DType.float16)
          shapes orders d1 d2 d3 d4 = .rejected) := by
  have h1 : ∀ (dtype : DType) (shape : PyShape) (order : Order),
      dtype ∈ _UNSUPPORTED_CUDF_DTYPES ∨ multidimensional shape = true →
      create_cuml_array_input (some "series") dtype shape order =
        .rejected := by
    intro dtype shape order h
    unfold create_cuml_array_input
    simp [h]
  refine ⟨h1, fun shapes orders d1 d2 d3 d4 => ?_⟩
  unfold cuml_arrays
  rw [h1 DType.float16 (shapes d3) (orders d4) (Or.inl (by decide))]

/-- Witness for C6 at `float16` with a genuinely 2-d shape. -/
theorem create_cuml_array_input_series_rejects_witness :
    create_cuml_array_input (some "series") DType.float16
      (PyShape.tup [2, 2]) Order.C = .rejected :=
  create_cuml_array_input_series_rejects.1 DType.float16
    (PyShape.tup [2, 2]) Order.C (Or.inl (by decide))

/-- C9: `safe_import` is total — it returns the imported module on success
and a `MissingImport` placeholder carrying the scoped message on any import
failure, the placeholder is constructed without any resolution — and every
attribute access on the placeholder, and every call of it, yields
`UnavailableImportError` with that message. -/
theorem safe_import_never_raises :
    (∀ (μ : Type) (env : String → Option μ) (module : String)
        (msg : Option String),
        safe_import env module msg =
          match env module with
          | some m => ImportResult.imported m
          | none => ImportResult.missing
              ⟨msg.getD (module ++ " could not be imported")⟩) ∧
    (∀ (mi : MissingImport) (name : String),
        MissingImport.getattr mi name = Except.error mi._msg) ∧
    (∀ (mi : MissingImport) (args : List String)
        (kwargs : List (String × String)),
        MissingImport.call mi args kwargs = Except.error mi._msg) :=
  ⟨fun μ env module msg => by
      unfold safe_import MissingImport.ofSymbol
      cases env module <;> rfl,
   fun mi name => rfl, fun mi args kwargs => rfl⟩

/-- C5 counterexample: with a drawn `n_features` of 15 the code passes
`max(min(15, 1), int(0.1 * 15)) = max(1, 1) = 1` informative features to
`make_regression`, while the claimed formula `max(1, round(0.1 × 15))`
gives 2. -/
theorem standard_regression_n_informative_counterexample :
    (standard_regression_datasets (fun _ => DType.float32) (fun _ => 100)
        (fun _ => 15) none (fun _ => 1) 0 0 0 0 0).1.n_informative = 1 ∧
    n_informative_claimed 15 = 2 := by
  constructor
  · rfl
  · norm_num [n_informative_claimed, round_eq]

/-- C5 amended: when `n_informative` is unspecified, the informative-feature
count passed to `make_regression` equals `max(1, ⌊0.1 × n_features⌋)`
(truncation, not rounding) for every drawn `n_features > 0`, and 0 when the
drawn `n_features` is 0. -/
theorem standard_regression_default_n_informative (dtypes : ℕ → DType)
    (n_samples n_features n_targets : ℕ → ℕ) (dF dS dI dT dD : ℕ) :
    (standard_regression_datasets dtypes n_samples n_features none
        n_targets dF dS dI dT dD).1.n_informative =
      if n_features dF = 0 then 0 else max 1 (n_features dF / 10) := by
  unfold standard_regression_datasets
  rcases Nat.eq_zero_or_pos (n_features dF) with h | h
  · simp [h]
  · have h1 : min (n_features dF) 1 = 1 := by omega
    simp only [h1]
    rw [if_neg (by omega)]

/-- C2 (code bug): `split_datasets` on a 2-row dataset with default
`test_sizes` rejects every sample — the default strategy
`integers(1, max(1, len(X) - 1)) = integers(1, 1)` always draws
`test_size = 1`, which `assume(1 < test_size < len(X))` then discards, so
the documented always-(1,1) split is never produced. -/
theorem split_datasets_two_rows_default_rejected (d : ℕ) :
    split_datasets 2 none d = .rejected := by
  unfold split_datasets integersDraw
  norm_num
  rfl

/-- C10: when the drawn `test_size` is neither a Python int nor a Python
float, neither `isinstance` branch fires, so no size-validity `assume` is
applied and the value reaches `train_test_split` unvalidated. -/
theorem split_datasets_other_test_size_unvalidated
    (n : ℕ) (hn : 1 < n) (f : ℕ → TestSize) (d : ℕ)
    (hf : f d = TestSize.other) :
    split_datasets n (some f) d =
      .accepted (train_test_split n TestSize.other) := by
  unfold split_datasets
  rw [if_neg (by omega)]
  simp only [hf]
  rfl

/-- Witness for C10 with a 2-row dataset and a strategy producing a
non-int non-float value. -/
theorem split_datasets_other_test_size_unvalidated_witness :
    split_datasets 2 (some fun _ => TestSize.other) 0 =
      .accepted (train_test_split 2 TestSize.other) :=
  split_datasets_other_test_size_unvalidated 2 (by decide)
    (fun _ => TestSize.other) 0 rfl

theorem one_le_of_pyInt_pos {q : ℚ} (h : 0 < pyInt q) : 1 ≤ q := by
  unfold pyInt at h
  split at h
  · exact_mod_cast Int.le_floor.mp h
  · next h0 =>
      have hle : q ≤ ((0 : ℤ) : ℚ) := by
        push_cast
        linarith [not_le.mp h0]
      have := Int.ceil_le.mpr hle
      omega

theorem train_test_split_int_ok (n : ℕ) (t : ℤ) (h1 : 1 < t)
    (h2 : t < (n : ℤ)) :
    ∃ tr te, train_test_split n (.int t) = .ok (tr, te) ∧
      1 ≤ tr ∧ 1 ≤ te ∧ tr + te = n := by
  refine ⟨n - t.toNat, t.toNat, ?_, by omega, by omega, by omega⟩
  simp only [train_test_split]
  rw [if_pos ⟨by omega, h2⟩]

theorem train_test_split_float_ok (n : ℕ) (q : ℚ) (hn : 1 < n)
    (h1 : 1 ≤ (n : ℚ) * q) (h2 : 1 ≤ (n : ℚ) * (1 - q)) :
    ∃ tr te, train_test_split n (.float q) = .ok (tr, te) ∧
      1 ≤ tr ∧ 1 ≤ te ∧ tr + te = n := by
  have hn0 : (0 : ℚ) < (n : ℚ) := by
    have : 0 < n := by omega
    exact_mod_cast this
  have hq0 : 0 < q := by nlinarith
  have hq1 : q < 1 := by nlinarith
  have hc1 : (1 : ℤ) ≤ ⌈(n : ℚ) * q⌉ := by
    have hle := Int.le_ceil ((n : ℚ) * q)
    exact_mod_cast le_trans h1 hle
  have hc2 : ⌈(n : ℚ) * q⌉ ≤ (n : ℤ) - 1 := by
    rw [Int.ceil_le]
    push_cast
    linarith
  refine ⟨n - (⌈(n : ℚ) * q⌉).toNat, (⌈(n : ℚ) * q⌉).toNat, ?_,
    by omega, by omega, by omega⟩
  simp only [train_test_split]
  rw [if_pos ⟨hq0, hq1⟩, if_pos ⟨by omega, by omega⟩]

theorem train_test_split_other_ok (n : ℕ) (hn : 1 < n) :
    ∃ tr te, train_test_split n .other = .ok (tr, te) ∧
      1 ≤ tr ∧ 1 ≤ te ∧ tr + te = n := by
  have hn0 : (0 : ℚ) < (n : ℚ) := by
    have : 0 < n := by omega
    exact_mod_cast this
  have hc1 : (1 : ℤ) ≤ ⌈(n : ℚ) / 4⌉ := Int.ceil_pos.mpr (by positivity)
  have hc2 : ⌈(n : ℚ) / 4⌉ ≤ (n : ℤ) - 1 := by
    rw [Int.ceil_le]
    have h2 : (2 : ℚ) ≤ (n : ℚ) := by exact_mod_cast hn
    push_cast
    linarith
  refine ⟨n - (⌈(n : ℚ) / 4⌉).toNat, (⌈(n : ℚ) / 4⌉).toNat, ?_,
    by omega, by omega, by omega⟩
  simp only [train_test_split]
  rw [if_pos ⟨by omega, by omega⟩]

theorem split_check_valid (n : ℕ) (hn : 1 < n) (ts : TestSize)
    (r : Except String (ℕ × ℕ))
    (h : split_datasets_check n ts = .accepted r) :
    ∃ tr te, r = Except.ok (tr, te) ∧ 1 ≤ tr ∧ 1 ≤ te ∧ tr + te = n := by
  cases ts with
  | int t =>
      simp only [split_datasets_check] at h
      split at h
      · next hc =>
          cases h
          exact train_test_split_int_ok n t hc.1 hc.2
      · cases h
  | float q =>
      simp only [split_datasets_check] at h
      split at h
      · next hc =>
          cases h
          exact train_test_split_float_ok n q hn
            (one_le_of_pyInt_pos hc.1) (one_le_of_pyInt_pos hc.2)
      · cases h
  | other =>
      simp only [split_datasets_check] at h
      cases h
      exact train_test_split_other_ok n hn

/-- C1: every sample `split_datasets` actually returns (datasets with
`len(X) <= 1` and invalid test sizes having been rejected) is a successful
split whose partition sizes satisfy `len(X_train) >= 1`, `len(X_test) >= 1`
and `len(X_train) + len(X_test) == len(X)`. -/
theorem split_datasets_returns_valid_split
    (n : ℕ) (test_sizes : Option (ℕ → TestSize)) (d : ℕ)
    (r : Except String (ℕ × ℕ))
    (h : split_datasets n test_sizes d = .accepted r) :
    ∃ tr te, r = Except.ok (tr, te) ∧ 1 ≤ tr ∧ 1 ≤ te ∧ tr + te = n := by
  unfold split_datasets at h
  by_cases hn : n ≤ 1
  · rw [if_pos hn] at h
    cases h
  · rw [if_neg hn] at h
    exact split_check_valid n (by omega) _ r h

/-- Witness for C1: a 3-row dataset with a default test-size draw of 2
yields the split (1, 2). -/
theorem split_datasets_returns_valid_split_witness :
    ∃ tr te, (Except.ok (1, 2) : Except String (ℕ × ℕ)) =
        Except.ok (tr, te) ∧ 1 ≤ tr ∧ 1 ≤ te ∧ tr + te = 3 :=
  split_datasets_returns_valid_split 3 none 1 (Except.ok (1, 2)) rfl
